import Mathlib

/-!
# Reply lifecycle manager — verification of the specification against the code

Shallow embedding of the reply lifecycle manager of the `wildresponder`
repository (`backend/app/main.py`, `backend/app/ai_responder.py`,
`backend/app/wb_api.py`).  The process-global `response_cache` dict is
modelled as an explicit association list threaded through every operation;
calls to the external AI backend and to the marketplace API are modelled by
outcome oracles supplied as arguments (the branch structure of the Python
`try/except` handlers is reproduced exactly); `save_cache()` invocations are
counted in a `persists` field; wall-clock time in the rate-limited bulk
workflow is modelled as an explicit rational clock advanced by `time.sleep`
and by per-submission durations.
-/

namespace WildResponder

/-- The in-memory `response_cache` dict (`main.py`): a string-keyed mapping,
modelled as an association list with at most one binding per key maintained
by the operations below. -/
abbrev Cache := List (String × String)

/-- Lookup, `response_cache[k]` / `response_cache.get(k)`: first binding wins
(Python dict keys are unique). -/
def cacheGet : Cache → String → Option String
  | [], _ => none
  | (k', v) :: rest, k => if k' = k then some v else cacheGet rest k

/-- Upsert, `response_cache[k] = v`, with Python dict semantics — replace the
existing binding in place, otherwise append. -/
def cacheInsert : Cache → String → String → Cache
  | [], k, v => [(k, v)]
  | (k', v') :: rest, k, v =>
    if k' = k then (k, v) :: rest else (k', v') :: cacheInsert rest k v

/-- Deletion, `del response_cache[k]`: remove the binding for `k` (unique by the dict
invariant). -/
def cacheErase : Cache → String → Cache
  | [], _ => []
  | (k', v') :: rest, k => if k' = k then rest else (k', v') :: cacheErase rest k

/-- Outcome of one call to the external AI backend inside
`ai_responder.generate_ai_response`: either the backend produced text (already
normalised by `_normalize_text`; the model never guarantees determinism), or
one of the three `except` branches of the source fired. -/
inductive GenOutcome where
  | success (text : String)
  | requestError
  | parseError
  | unexpectedError (msg : String)
deriving DecidableEq, Repr

/-- Model of `ai_responder.generate_ai_response` (lines 172–224): returns the backend
text on success and one of the three fixed fallback strings on the
corresponding `except` branch (`requests.exceptions.RequestException`,
`(KeyError, IndexError)`, generic `Exception`). -/
def generate_ai_response : GenOutcome → String
  | .success t => t
  | .requestError => "Не удалось получить ответ от ИИ. Попробуйте еще раз."
  | .parseError => "Не удалось обработать ответ от ИИ. Структура ответа изменилась."
  | .unexpectedError e => "Произошла непредвиденная ошибка: " ++ e

/-- Python's `s.startswith(p)`, computed on the character lists so that it
evaluates inside the kernel. -/
def startsWithStr (s p : String) : Bool :=
  p.data.isPrefixOf s.data

/-- The prefix guard used by `main.py` before caching a generated text
(lines 188 and 746): `response_text.startswith("Ошибка") or
response_text.startswith("API-ключ") or response_text.startswith("Не удалось")`. -/
def isRecognizedError (s : String) : Bool :=
  startsWithStr s "Ошибка" || startsWithStr s "API-ключ" || startsWithStr s "Не удалось"

/-- The full cache guard of `main.py`:
`if response_text and not ...startswith(...)` — Python string truthiness
(non-empty) plus the recognized-prefix check. -/
def shouldCache (s : String) : Bool :=
  !(s = "") && !isRecognizedError s

/-- Model of `GenerateResponsePayload` (`models.py`): the request body of the two
generation endpoints.  Fields that only feed the prompt builder are kept for
fidelity but do not influence control flow. -/
structure GenPayload where
  id : String
  text : String
  prompt : Option String := none
  rating : Option Int := none
  force : Bool := false
  productName : Option String := none
deriving DecidableEq, Repr

/-- Result of one call to the `POST /api/generate-response` handler: the JSON
`response` field, the cache afterwards, the number of
`ai_responder.generate_ai_response` calls made, and the number of
`save_cache()` calls made. -/
structure GenResult where
  response : String
  cache : Cache
  genCalls : Nat
  persists : Nat
deriving DecidableEq, Repr

/-- Model of `generate_response` in `main.py` (lines 717–753): the cache-hit test is
`not payload.force and payload.id in response_cache` — the prompt is NOT
consulted; otherwise the generator is called once and the result is cached
and persisted exactly when `shouldCache` accepts it. -/
def generate_response (p : GenPayload) (cache : Cache) (gen : GenOutcome) :
    GenResult :=
  match p.force, cacheGet cache p.id with
  | false, some v => { response := v, cache := cache, genCalls := 0, persists := 0 }
  | _, _ =>
    let t := generate_ai_response gen
    if shouldCache t then
      { response := t, cache := cacheInsert cache p.id t, genCalls := 1,
        persists := 1 }
    else
      { response := t, cache := cache, genCalls := 1, persists := 0 }

/-- Outcome of one per-variant backend call inside the labelled loop of
`generate_multiple_ai_responses`: either text came back, or the inner
`except` branch fired for that label. -/
inductive VariantOutcome where
  | success (text : String)
  | failure
deriving DecidableEq, Repr

/-- The per-variant fallback string (`ai_responder.py` lines 264 and 280). -/
def variantFallback : String :=
  "Не удалось сгенерировать этот вариант. Попробуйте снова."

/-- Variant labels by profile (`ai_responder.py` lines 247 and 274). -/
def variantLabels (profile : String) : List String :=
  if profile = "gpt" then ["gpt", "gpt_v2", "gpt_v3"]
  else ["gemini", "gemini_v2", "gemini_v3"]

/-- Model of `ai_responder.generate_multiple_ai_responses` (lines 227–296): every
label is generated under its own inner `try/except`, a failed slot holding
`variantFallback`; if the surrounding `try` fails (`outerFail`), the function
falls back to one `generate_ai_response` call replicated under all labels of
the profile. -/
def generate_multiple_ai_responses (profile : String)
    (outcomes : String → VariantOutcome) (outerFail : Bool)
    (single : GenOutcome) : List (String × String) :=
  if outerFail then
    let s := generate_ai_response single
    (variantLabels profile).map fun l => (l, s)
  else
    (variantLabels profile).map fun l =>
      (l, match outcomes l with
          | .success t => t
          | .failure => variantFallback)

/-- Python string-option truthiness: `None` and `""` are falsy. -/
def optStrFalsy : Option String → Bool
  | none => true
  | some s => s = ""

/-- Result of one call to the `POST /api/generate-multiple-responses`
handler. -/
structure MultiResult where
  responses : List (String × String)
  cache : Cache
  genCalls : Nat
deriving DecidableEq, Repr

/-- Model of `generate_multiple_responses` in `main.py` (lines 685–715): cache hit only
when `force` is false AND the prompt is falsy AND the id is cached — then the
single cached string is returned under the hard-coded labels `gpt`,
`gpt_v2`, `gpt_v3` with no generator call; otherwise the variants are
generated (default `gemini` profile) and the cache is deliberately left
untouched. -/
def generate_multiple_responses (p : GenPayload) (cache : Cache)
    (outcomes : String → VariantOutcome) (outerFail : Bool)
    (single : GenOutcome) : MultiResult :=
  if !p.force && optStrFalsy p.prompt && (cacheGet cache p.id).isSome then
    let c := (cacheGet cache p.id).getD ""
    { responses := [("gpt", c), ("gpt_v2", c), ("gpt_v3", c)],
      cache := cache, genCalls := 0 }
  else
    { responses := generate_multiple_ai_responses "gemini" outcomes outerFail single,
      cache := cache,
      genCalls := if outerFail then 1 else 3 }

/-- Result of one call to the `POST /api/cache-selected-response` handler:
HTTP status, cache afterwards, number of `save_cache()` calls. -/
structure SelectResult where
  httpStatus : Nat
  cache : Cache
  persists : Nat
deriving DecidableEq, Repr

/-- Model of `cache_selected_response` in `main.py` (lines 755–771): `payload.get("id")`
and `payload.get("response")` are tested for Python falsiness (`not item_id
or not selected_response`), so an absent field and an empty string are both
rejected with 400 before any mutation; otherwise the unconditional upsert
plus one `save_cache()`. -/
def cache_selected_response (pid presp : Option String) (cache : Cache) :
    SelectResult :=
  if optStrFalsy pid || optStrFalsy presp then
    { httpStatus := 400, cache := cache, persists := 0 }
  else
    { httpStatus := 200, cache := cacheInsert cache (pid.getD "") (presp.getD ""),
      persists := 1 }

/-- Model of `ReplyPayload` (`models.py`): the request body of `POST /api/reply`.  The
`answer` dict is kept as an association list; only its `"text"` key is read. -/
structure ReplyPayloadM where
  id : String
  type : String
  text : Option String := none
  answer : Option (List (String × String)) := none
  state : Option String := none
deriving DecidableEq, Repr

/-- Python's `a or b` on optional strings: `a` unless it is falsy. -/
def orFalsy (a b : Option String) : Option String :=
  match a with
  | some s => if s = "" then b else some s
  | none => b

/-- Result of one call to the `POST /api/reply` handler. -/
structure ReplyResult where
  httpStatus : Nat
  cache : Cache
  persists : Nat
deriving DecidableEq, Repr

/-- Model of `send_reply` in `main.py` (lines 773–810): resolve the final text (for
questions, `payload.answer.get("text") or reply_text`), 400 if the resolved
text is falsy, then submit; on success delete the item's cache entry (if
present) and persist; on failure answer 500 and leave the cache untouched. -/
def send_reply (p : ReplyPayloadM) (cache : Cache) (submitSuccess : Bool) :
    ReplyResult :=
  let replyText :=
    if p.type = "questions" then
      match p.answer with
      | some d => orFalsy (cacheGet d "text") p.text
      | none => p.text
    else p.text
  match replyText with
  | none => { httpStatus := 400, cache := cache, persists := 0 }
  | some t =>
    if t = "" then { httpStatus := 400, cache := cache, persists := 0 }
    else if submitSuccess then
      if (cacheGet cache p.id).isSome then
        { httpStatus := 200, cache := cacheErase cache p.id, persists := 1 }
      else
        { httpStatus := 200, cache := cache, persists := 0 }
    else
      { httpStatus := 500, cache := cache, persists := 0 }

/-- The fields of a `Feedback` (`models.py`) that drive the bulk workflow;
the remaining fields only feed the generator's prompt builder. -/
structure FeedbackM where
  id : String
  text : String := ""
  productValuation : Int
  productName : String := ""
deriving DecidableEq, Repr

/-- The summary dict returned by `_run_auto_reply_5_stars_feedbacks_sync`. -/
structure AutoReplySummary where
  total_feedbacks : Nat
  generated : Nat
  cached : Nat
  replied_5_stars : Nat
  errors : List (String × String)
deriving DecidableEq, Repr

/-- State of the phase-1 generation loop: the cache plus the counters and
the per-item error dict. -/
structure Phase1State where
  cache : Cache
  generated : Nat
  cached : Nat
  errors : List (String × String)
deriving DecidableEq, Repr

/-- One iteration of the generation loop (`main.py` lines 170–192): skip
items already cached (counting them), otherwise generate; cache and count an
accepted text, record `response_text or "Пустой ответ ИИ"` under the item id
otherwise. -/
def phase1Step (gen : FeedbackM → GenOutcome) (s : Phase1State)
    (fb : FeedbackM) : Phase1State :=
  if (cacheGet s.cache fb.id).isSome then
    { s with cached := s.cached + 1 }
  else
    let t := generate_ai_response (gen fb)
    if shouldCache t then
      { s with cache := cacheInsert s.cache fb.id t, generated := s.generated + 1 }
    else
      let msg := if t = "" then "Пустой ответ ИИ" else t
      { s with errors := cacheInsert s.errors fb.id msg }

/-- State of the phase-2 submission loop: the explicit wall clock, the
window bookkeeping of `main.py` lines 198–235, the issue timestamps of all
submissions, and the cache/summary effects. -/
structure Phase2State where
  clock : ℚ
  windowStart : ℚ
  sentInWindow : Nat
  sendTimes : List ℚ
  replied : Nat
  cache : Cache
  errors : List (String × String)
  persists : Nat
deriving DecidableEq, Repr

/-- One iteration of the submission loop (`main.py` lines 201–235) for
feedback `fb`: skip non-5-star items and items without a (truthy) cached
draft; open a fresh window when a full second has elapsed since the window
start; when the in-window success counter has reached 3, sleep out the rest
of the window and open a fresh one; then issue the submission at the current
clock (the call itself taking `dur fb.id` seconds) and, on success, count
it, delete the draft and persist — on failure record the item under the
error dict and leave the cache as it was. -/
def phase2Step (sub : String → Bool) (dur : String → ℚ) (s : Phase2State)
    (fb : FeedbackM) : Phase2State :=
  if fb.productValuation ≠ 5 then s
  else
    match cacheGet s.cache fb.id with
    | none => s
    | some reply =>
      if reply = "" then s
      else
        let now := s.clock
        let ws1 := if now - s.windowStart ≥ 1 then now else s.windowStart
        let cnt1 := if now - s.windowStart ≥ 1 then 0 else s.sentInWindow
        let sleepTime := 1 - (now - ws1)
        let t1 := if 3 ≤ cnt1 then (if 0 < sleepTime then now + sleepTime else now) else now
        let ws2 := if 3 ≤ cnt1 then t1 else ws1
        let cnt2 := if 3 ≤ cnt1 then 0 else cnt1
        if sub fb.id then
          { clock := t1 + dur fb.id, windowStart := ws2, sentInWindow := cnt2 + 1,
            sendTimes := s.sendTimes ++ [t1], replied := s.replied + 1,
            cache := cacheErase s.cache fb.id, errors := s.errors,
            persists := s.persists + 1 }
        else
          { clock := t1 + dur fb.id, windowStart := ws2, sentInWindow := cnt2,
            sendTimes := s.sendTimes ++ [t1], replied := s.replied,
            cache := s.cache,
            errors := cacheInsert s.errors fb.id "Не удалось отправить ответ в WB",
            persists := s.persists }

/-- Result of one full synchronous bulk run: the summary plus the final
cache and the timing record of phase 2. -/
structure RunResult where
  summary : AutoReplySummary
  cache : Cache
  sendTimes : List ℚ
  finalClock : ℚ
deriving DecidableEq, Repr

/-- Model of `_run_auto_reply_5_stars_feedbacks_sync` (`main.py` lines 143–245) after
a successful fetch: the empty-set early return, then phase 1 over every
feedback (generation, one `save_cache()` at the end of the phase), then
phase 2 started at clock `t0` with the window opened at `t0`. -/
def runSyncCore (gen : FeedbackM → GenOutcome) (sub : String → Bool)
    (dur : String → ℚ) (feedbacks : List FeedbackM) (cache0 : Cache)
    (t0 : ℚ) : RunResult :=
  if feedbacks.isEmpty then
    { summary := { total_feedbacks := 0, generated := 0, cached := 0,
                   replied_5_stars := 0, errors := [] },
      cache := cache0, sendTimes := [], finalClock := t0 }
  else
    let p1 := feedbacks.foldl (phase1Step gen)
      { cache := cache0, generated := 0, cached := 0, errors := [] }
    let p2 := feedbacks.foldl (phase2Step sub dur)
      { clock := t0, windowStart := t0, sentInWindow := 0, sendTimes := [],
        replied := 0, cache := p1.cache, errors := p1.errors, persists := 0 }
    { summary := { total_feedbacks := feedbacks.length,
                   generated := p1.generated, cached := p1.cached,
                   replied_5_stars := p2.replied, errors := p2.errors },
      cache := p2.cache, sendTimes := p2.sendTimes, finalClock := p2.clock }

/-- The workflow including its fetch: `wb_api.get_unanswered_feedbacks`
handles request/parse errors by returning `[]`, but `get_wb_api_headers()`
(missing API key, `wb_api.py` line 15) and model validation raise — an
`.error` fetch propagates out of the sync workflow unchanged. -/
def runSync (fetch : Except String (List FeedbackM))
    (gen : FeedbackM → GenOutcome) (sub : String → Bool) (dur : String → ℚ)
    (cache0 : Cache) (t0 : ℚ) : Except String RunResult :=
  fetch.map fun feedbacks => runSyncCore gen sub dur feedbacks cache0 t0

/-- Status of a `job_results` record (`main.py` line 27). -/
inductive JobStatus where
  | running
  | completed
  | failed
deriving DecidableEq, Repr

/-- A `job_results[job_id]` record as stored by `_run_auto_reply_job`. -/
structure JobRecord where
  status : JobStatus
  result : Option RunResult
  errorMsg : Option String
deriving DecidableEq, Repr

/-- Model of `_run_auto_reply_job` in `main.py` (lines 248–277): run the sync workflow
under `try/except`; store `completed` plus the summary on success, `failed`
plus `{"error": str(e)}` when the workflow itself threw. -/
def _run_auto_reply_job (run : Except String RunResult) : JobRecord :=
  match run with
  | .ok r => { status := .completed, result := some r, errorMsg := none }
  | .error e => { status := .failed, result := none, errorMsg := some e }

/-- Model of the `startup_event` cache pruning in `main.py` (lines 283–309): build the
pruned dict keeping exactly the entries whose id is in the active set, and
only when it is strictly smaller replace the cache and call `save_cache()`
once; when nothing is stale neither the cache nor the persisted file is
touched.  Returns the cache afterwards and the number of `save_cache()`
calls. -/
def startupReconcile (cache : Cache) (activeIds : List String) :
    Cache × Nat :=
  let pruned := cache.filter fun p => activeIds.contains p.1
  if pruned.length < cache.length then (pruned, 1) else (cache, 0)

/-- Key uniqueness — the dict invariant every Python-dict-derived cache
satisfies. -/
def keysUnique (c : Cache) : Prop :=
  (c.map Prod.fst).Nodup

/-- Number of submissions whose issue timestamp lies inside the rolling
1-second window starting at `t`. -/
def windowCount (times : List ℚ) (t : ℚ) : Nat :=
  (times.filter fun x => decide (t ≤ x) && decide (x < t + 1)).length

/-- Phase-1 accounting: feedback `fb` is accounted for by state `s` when it
either has a cached draft or an entry in the per-item error dict. -/
def phase1Accounted (s : Phase1State) (fb : FeedbackM) : Prop :=
  (cacheGet s.cache fb.id).isSome ∨ fb.id ∈ s.errors.map Prod.fst

/-- The seven eligible 5-star items of the rate-limiting scenario. -/
def sevenFiveStarItems : List FeedbackM :=
  (List.range 7).map fun i => { id := toString i, productValuation := 5 }

/-- The concrete run of the rate-limiting scenario: seven 5-star feedbacks,
a generator that always succeeds, a submitter that always succeeds
instantly (zero duration), empty starting cache, phase 2 starting at
clock 0. -/
def sevenItemRun : RunResult :=
  runSyncCore (fun _ => .success "Спасибо за отзыв!") (fun _ => true)
    (fun _ => 0) sevenFiveStarItems [] 0

/-- Characterisation of lookup after upsert. -/
theorem cacheGet_insert (c : Cache) (k k' v : String) :
    cacheGet (cacheInsert c k v) k' = if k = k' then some v else cacheGet c k' := by
  induction c with
  | nil => simp [cacheInsert, cacheGet]
  | cons a rest ih =>
    obtain ⟨x, y⟩ := a
    by_cases h1 : x = k <;> by_cases h2 : x = k' <;> by_cases h3 : k = k' <;>
      simp_all [cacheInsert, cacheGet]

/-- Lookup of an absent key. -/
theorem cacheGet_eq_none_of_not_mem (c : Cache) (k : String)
    (h : k ∉ c.map Prod.fst) : cacheGet c k = none := by
  induction c with
  | nil => rfl
  | cons a rest ih =>
    obtain ⟨x, y⟩ := a
    simp only [List.map_cons, List.mem_cons, not_or] at h
    have hx : ¬ x = k := fun hh => h.1 hh.symm
    simp [cacheGet, hx, ih h.2]

/-- Deleting a key really removes it, under the dict invariant. -/
theorem cacheGet_erase_self (c : Cache) (k : String) (hu : keysUnique c) :
    cacheGet (cacheErase c k) k = none := by
  induction c with
  | nil => rfl
  | cons a rest ih =>
    obtain ⟨x, y⟩ := a
    simp only [keysUnique, List.map_cons, List.nodup_cons] at hu
    by_cases hxk : x = k
    · simp only [cacheErase, if_pos hxk]
      exact cacheGet_eq_none_of_not_mem rest k (hxk ▸ hu.1)
    · simp [cacheErase, hxk, cacheGet, ih hu.2]

/-- Deleting one key leaves every other key's binding unchanged. -/
theorem cacheGet_erase_ne (c : Cache) (k k' : String) (h : k' ≠ k) :
    cacheGet (cacheErase c k) k' = cacheGet c k' := by
  induction c with
  | nil => rfl
  | cons a rest ih =>
    obtain ⟨x, y⟩ := a
    by_cases hxk : x = k
    · have hxk' : ¬ x = k' := fun hh => h (hh ▸ hxk)
      simp [cacheErase, hxk, cacheGet, hxk', Ne.symm h]
    · by_cases hxk' : x = k' <;> simp [cacheErase, hxk, cacheGet, hxk', ih, h]

/-- Upserting preserves key membership and can only add the upserted key. -/
theorem mem_keys_cacheInsert (c : Cache) (k v a : String) :
    a ∈ (cacheInsert c k v).map Prod.fst ↔ a = k ∨ a ∈ c.map Prod.fst := by
  induction c with
  | nil => simp [cacheInsert]
  | cons p rest ih =>
    obtain ⟨x, y⟩ := p
    by_cases hxk : x = k
    · subst hxk
      simp only [cacheInsert, if_true]
      simp only [List.map_cons, List.mem_cons]
      tauto
    · simp only [cacheInsert]
      rw [if_neg hxk]
      simp only [List.map_cons, List.mem_cons, ih]
      tauto

/-- C1: the claim says that with `force = false` and the item cached, a
supplied custom instruction (`prompt`) always triggers a fresh generator call
and bypasses the cache-hit.  The code's cache-hit test
(`main.py` line 721) ignores `prompt` entirely: at the failing input below —
`force = false`, a custom prompt supplied, id `"A"` cached — the handler
returns the cached text and makes zero generator calls, contradicting both
the claim and the code's own comment ("A custom prompt implies
regeneration"). -/
theorem c1_prompt_does_not_bypass_cache_hit :
    (generate_response
      { id := "A", text := "отличный товар",
        prompt := some "ответь официально", force := false }
      [("A", "кэшированный ответ")] (.success "свежий ответ")).response
      = "кэшированный ответ"
    ∧ (generate_response
      { id := "A", text := "отличный товар",
        prompt := some "ответь официально", force := false }
      [("A", "кэшированный ответ")] (.success "свежий ответ")).genCalls = 0 := by
  exact ⟨rfl, rfl⟩

/-- C2: the claim says every generator error-fallback string carries a
recognized prefix and is never cached.  True for the backend-unreachable and
malformed-response fallbacks (prefix "Не удалось"), but the
unexpected-exception fallback "Произошла непредвиденная ошибка: …"
(`ai_responder.py` line 224) matches none of the three guarded prefixes, so
`generate_response` caches it: an absent entry for `"B"` becomes present and
holds the error string, contradicting the code's own comment
("Но не кэшируем ошибки", `main.py` line 745). -/
theorem c2_unexpected_error_fallback_is_cached :
    (generate_response { id := "B", text := "т" } [] .requestError).cache = []
    ∧ (generate_response { id := "B", text := "т" } [] .parseError).cache = []
    ∧ isRecognizedError (generate_ai_response .requestError) = true
    ∧ isRecognizedError (generate_ai_response .parseError) = true
    ∧ isRecognizedError (generate_ai_response (.unexpectedError "boom")) = false
    ∧ (generate_response { id := "B", text := "т" } []
        (.unexpectedError "boom")).cache
      = [("B", "Произошла непредвиденная ошибка: boom")] := by
  refine ⟨rfl, rfl, by decide, by decide, by decide, rfl⟩

/-- C6: with `force = false`, no instruction, and the item already cached,
single-item generation is a read-only cache hit: both of two successive calls
return the cached text unchanged, neither touches the cache or persistence,
and the generator is called zero times on the second (indeed on either) call,
whatever the generator oracle would have produced. -/
theorem c6_cached_generation_idempotent (cache : Cache) (iid v txt : String)
    (h : cacheGet cache iid = some v) (gen1 gen2 : GenOutcome) :
    (generate_response { id := iid, text := txt, force := false } cache gen1).response = v
    ∧ (generate_response { id := iid, text := txt, force := false } cache gen1).cache = cache
    ∧ (generate_response { id := iid, text := txt, force := false } cache gen1).genCalls = 0
    ∧ (generate_response { id := iid, text := txt, force := false }
        (generate_response { id := iid, text := txt, force := false } cache gen1).cache
        gen2).response = v
    ∧ (generate_response { id := iid, text := txt, force := false }
        (generate_response { id := iid, text := txt, force := false } cache gen1).cache
        gen2).genCalls = 0 := by
  simp [generate_response, h]

/-- Witness for `c6_cached_generation_idempotent` at a concrete cached item. -/
theorem c6_cached_generation_idempotent_witness :
    (generate_response { id := "A", text := "т", force := false }
      [("A", "спасибо")] .requestError).response = "спасибо"
    ∧ (generate_response { id := "A", text := "т", force := false }
      [("A", "спасибо")] .requestError).cache = [("A", "спасибо")]
    ∧ (generate_response { id := "A", text := "т", force := false }
      [("A", "спасибо")] .requestError).genCalls = 0
    ∧ (generate_response { id := "A", text := "т", force := false }
        (generate_response { id := "A", text := "т", force := false }
          [("A", "спасибо")] .requestError).cache .parseError).response = "спасибо"
    ∧ (generate_response { id := "A", text := "т", force := false }
        (generate_response { id := "A", text := "т", force := false }
          [("A", "спасибо")] .requestError).cache .parseError).genCalls = 0 :=
  c6_cached_generation_idempotent [("A", "спасибо")] "A" "спасибо" "т" rfl
    .requestError .parseError

/-- C5 counterexample: the claim asserts persistence is invoked exactly once
for EVERY starting cache and active set, but when nothing is stale the
startup pruning skips `save_cache()` entirely (`main.py` lines 299–306):
with cache `{A: "x"}` and active set `{A}` the persistence count is 0. -/
theorem c5_reconcile_counterexample :
    ¬ (startupReconcile [("A", "x")] ["A"]).2 = 1 := by
  decide

/-- C5 (amended): reconcile keeps exactly the entries whose identifier is in
the active set, with values unchanged; persistence is invoked exactly once
when at least one entry is removed and zero times otherwise (never more than
once); on the claim's example `{A: "x", B: "y", C: "z"}` with active set
`{A, C}` the cache afterwards is `{A: "x", C: "z"}` and persistence runs
exactly once. -/
theorem c5_reconcile_spec (cache : Cache) (active : List String) :
    (startupReconcile cache active).1
      = cache.filter (fun p => active.contains p.1)
    ∧ ((startupReconcile cache active).2 = 1
        ↔ ∃ p ∈ cache, ¬ active.contains p.1)
    ∧ (startupReconcile cache active).2 ≤ 1
    ∧ startupReconcile [("A", "x"), ("B", "y"), ("C", "z")] ["A", "C"]
        = ([("A", "x"), ("C", "z")], 1) := by
  refine ⟨?_, ?_, ?_, by decide⟩
  · simp only [startupReconcile]
    split_ifs with h
    · rfl
    · push_neg at h
      exact ((List.filter_sublist cache).eq_of_length
        (Nat.le_antisymm (List.length_filter_le _ _) h)).symm
  · simp only [startupReconcile]
    split_ifs with h
    · simpa using List.length_filter_lt_length_iff_exists.mp h
    · simp only [Nat.zero_ne_one, false_iff]
      rw [not_lt] at h
      intro hex
      exact absurd (List.length_filter_lt_length_iff_exists.mpr (by simpa using hex))
        (not_lt.mpr h)
  · simp only [startupReconcile]
    split_ifs <;> simp

/-- C9: for `POST /api/generate-multiple-responses` with `force` false, a
falsy prompt and a cached id, the handler makes no generator call, leaves
the cache unchanged, and returns the one cached string identically under the
three hard-coded labels `gpt`, `gpt_v2`, `gpt_v3`. -/
theorem c9_multi_cached_replicates (p : GenPayload) (cache : Cache) (v : String)
    (hf : p.force = false) (hp : optStrFalsy p.prompt = true)
    (hc : cacheGet cache p.id = some v)
    (outcomes : String → VariantOutcome) (outerFail : Bool) (single : GenOutcome) :
    (generate_multiple_responses p cache outcomes outerFail single).responses
      = [("gpt", v), ("gpt_v2", v), ("gpt_v3", v)]
    ∧ (generate_multiple_responses p cache outcomes outerFail single).genCalls = 0
    ∧ (generate_multiple_responses p cache outcomes outerFail single).cache = cache := by
  simp [generate_multiple_responses, hf, hp, hc]

/-- Witness for `c9_multi_cached_replicates` at a concrete cached item. -/
theorem c9_multi_cached_replicates_witness :
    (generate_multiple_responses { id := "A", text := "т" } [("A", "спасибо")]
      (fun _ => .failure) false .requestError).responses
      = [("gpt", "спасибо"), ("gpt_v2", "спасибо"), ("gpt_v3", "спасибо")]
    ∧ (generate_multiple_responses { id := "A", text := "т" } [("A", "спасибо")]
      (fun _ => .failure) false .requestError).genCalls = 0
    ∧ (generate_multiple_responses { id := "A", text := "т" } [("A", "спасибо")]
      (fun _ => .failure) false .requestError).cache = [("A", "спасибо")] :=
  c9_multi_cached_replicates { id := "A", text := "т" } [("A", "спасибо")]
    "спасибо" rfl rfl rfl (fun _ => .failure) false .requestError

/-- C10: `POST /api/cache-selected-response` rejects with 400 whenever the
`id` or `response` field is falsy — absent OR the empty string — leaving the
cache and its persisted file untouched; otherwise it unconditionally upserts
and persists once.  The last two conjuncts isolate the empty-string cases
the claim highlights. -/
theorem c10_cache_selected_falsiness (pid presp : Option String) (cache : Cache) :
    ((optStrFalsy pid || optStrFalsy presp) = true →
      (cache_selected_response pid presp cache).httpStatus = 400
      ∧ (cache_selected_response pid presp cache).cache = cache
      ∧ (cache_selected_response pid presp cache).persists = 0)
    ∧ ((optStrFalsy pid || optStrFalsy presp) = false →
      (cache_selected_response pid presp cache).httpStatus = 200
      ∧ (cache_selected_response pid presp cache).cache
          = cacheInsert cache (pid.getD "") (presp.getD "")
      ∧ (cache_selected_response pid presp cache).persists = 1)
    ∧ (cache_selected_response (some "") presp cache).httpStatus = 400
    ∧ (cache_selected_response pid (some "") cache).httpStatus = 400 := by
  refine ⟨fun h => ?_, fun h => ?_, ?_, ?_⟩
  · simp [cache_selected_response, h]
  · simp [cache_selected_response, h]
  · simp [cache_selected_response, optStrFalsy]
  · simp [cache_selected_response, optStrFalsy]

/-- Witness for `c10_cache_selected_falsiness`: an empty `id` is rejected
with 400 and mutates nothing, and a truthy pair is upserted and persisted. -/
theorem c10_cache_selected_falsiness_witness :
    ((cache_selected_response (some "") (some "ответ") []).httpStatus = 400
      ∧ (cache_selected_response (some "") (some "ответ") []).cache = []
      ∧ (cache_selected_response (some "") (some "ответ") []).persists = 0)
    ∧ ((cache_selected_response (some "A") (some "ответ") []).httpStatus = 200
      ∧ (cache_selected_response (some "A") (some "ответ") []).cache
          = cacheInsert [] "A" "ответ"
      ∧ (cache_selected_response (some "A") (some "ответ") []).persists = 1) :=
  ⟨(c10_cache_selected_falsiness (some "") (some "ответ") []).1 (by decide),
   (c10_cache_selected_falsiness (some "A") (some "ответ") []).2.1 (by decide)⟩

/-- C7: `generate_multiple_ai_responses` always returns exactly 3 labelled
entries, for every profile and every combination of per-variant outcomes —
including total outer failure — and, when the labelled loop runs, every
label whose own generation failed still appears, filled with the fallback
string, never omitted. -/
theorem c7_variants_always_three (profile : String)
    (outcomes : String → VariantOutcome) (outerFail : Bool) (single : GenOutcome) :
    (generate_multiple_ai_responses profile outcomes outerFail single).length = 3
    ∧ ∀ l ∈ variantLabels profile, outcomes l = .failure →
        (l, variantFallback)
          ∈ generate_multiple_ai_responses profile outcomes false single := by
  constructor
  · unfold generate_multiple_ai_responses variantLabels
    split_ifs <;> simp
  · intro l hl hfail
    unfold generate_multiple_ai_responses
    simp only [if_neg (Bool.false_ne_true)]
    refine List.mem_map.mpr ⟨l, hl, ?_⟩
    simp [hfail]

/-- Witness for `c7_variants_always_three`: with the default profile and all
three per-variant generations failing, 3 entries still come back and the
failed first slot is present with the fallback text. -/
theorem c7_variants_always_three_witness :
    (generate_multiple_ai_responses "gemini" (fun _ => .failure) false
      .requestError).length = 3
    ∧ ("gemini", variantFallback)
        ∈ generate_multiple_ai_responses "gemini" (fun _ => .failure) false
          .requestError :=
  ⟨(c7_variants_always_three "gemini" (fun _ => .failure) false .requestError).1,
   (c7_variants_always_three "gemini" (fun _ => .failure) false .requestError).2
     "gemini" (by decide) rfl⟩

/-- C4: a successful submission deletes the submitted item's cache entry
(leaving every other entry unchanged) and reports success, while a failed
submission reports failure (HTTP 500 on the single path, an entry in the
error dict in the bulk phase) and leaves the cache exactly as it was — both
for the `POST /api/reply` handler and for phase 2 of the bulk workflow. -/
theorem c4_submission_deletes_on_success_only
    (p : ReplyPayloadM) (cache : Cache) (v t : String)
    (htype : p.type = "feedbacks") (htext : p.text = some t) (ht : ¬ t = "")
    (hmem : cacheGet cache p.id = some v) (hu : keysUnique cache)
    (s : Phase2State) (fb : FeedbackM) (w : String) (dur : String → ℚ)
    (hfb : fb.productValuation = 5) (hw : cacheGet s.cache fb.id = some w)
    (hw' : ¬ w = "") (hus : keysUnique s.cache) :
    ((send_reply p cache true).httpStatus = 200
      ∧ cacheGet (send_reply p cache true).cache p.id = none
      ∧ ∀ k, k ≠ p.id →
          cacheGet (send_reply p cache true).cache k = cacheGet cache k)
    ∧ ((send_reply p cache false).httpStatus = 500
      ∧ (send_reply p cache false).cache = cache)
    ∧ (cacheGet (phase2Step (fun _ => true) dur s fb).cache fb.id = none
      ∧ (phase2Step (fun _ => true) dur s fb).replied = s.replied + 1
      ∧ ∀ k, k ≠ fb.id →
          cacheGet (phase2Step (fun _ => true) dur s fb).cache k
            = cacheGet s.cache k)
    ∧ ((phase2Step (fun _ => false) dur s fb).cache = s.cache
      ∧ (phase2Step (fun _ => false) dur s fb).replied = s.replied
      ∧ fb.id ∈ (phase2Step (fun _ => false) dur s fb).errors.map Prod.fst) := by
  have hnq : ¬ p.type = "questions" := by rw [htype]; decide
  refine ⟨⟨?_, ?_, ?_⟩, ⟨?_, ?_⟩, ⟨?_, ?_, ?_⟩, ⟨?_, ?_, ?_⟩⟩
  · simp [send_reply, hnq, htext, ht, hmem]
  · simp only [send_reply, if_neg hnq, htext]
    rw [if_neg ht]
    simp [hmem, cacheGet_erase_self cache p.id hu]
  · intro k hk
    simp only [send_reply, if_neg hnq, htext]
    rw [if_neg ht]
    simp [hmem, cacheGet_erase_ne cache p.id k hk]
  · simp only [send_reply, if_neg hnq, htext]
    rw [if_neg ht]
    simp
  · simp only [send_reply, if_neg hnq, htext]
    rw [if_neg ht]
    simp
  · simp only [phase2Step, hfb, hw]
    rw [if_neg (by simp)]
    simp [hw', cacheGet_erase_self s.cache fb.id hus]
  · simp only [phase2Step, hfb, hw]
    rw [if_neg (by simp)]
    simp [hw']
  · intro k hk
    simp only [phase2Step, hfb, hw]
    rw [if_neg (by simp)]
    simp [hw', cacheGet_erase_ne s.cache fb.id k hk]
  · simp only [phase2Step, hfb, hw]
    rw [if_neg (by simp)]
    simp [hw']
  · simp only [phase2Step, hfb, hw]
    rw [if_neg (by simp)]
    simp [hw']
  · simp only [phase2Step, hfb, hw]
    rw [if_neg (by simp)]
    simp only [if_neg (Bool.false_ne_true)]
    simpa [hw'] using (mem_keys_cacheInsert s.errors fb.id
      "Не удалось отправить ответ в WB" fb.id).mpr (Or.inl rfl)

/-- Witness for `c4_submission_deletes_on_success_only` at a concrete
payload, cache and phase-2 state. -/
theorem c4_submission_deletes_on_success_only_witness :
    (((send_reply { id := "A", type := "feedbacks", text := some "текст" }
        [("A", "черновик")] true).httpStatus = 200
      ∧ cacheGet (send_reply { id := "A", type := "feedbacks", text := some "текст" }
          [("A", "черновик")] true).cache "A" = none)
    ∧ ((send_reply { id := "A", type := "feedbacks", text := some "текст" }
        [("A", "черновик")] false).httpStatus = 500
      ∧ (send_reply { id := "A", type := "feedbacks", text := some "текст" }
        [("A", "черновик")] false).cache = [("A", "черновик")])
    ∧ cacheGet (phase2Step (fun _ => true) (fun _ => 0)
        { clock := 0, windowStart := 0, sentInWindow := 0, sendTimes := [],
          replied := 0, cache := [("B", "ответ")], errors := [], persists := 0 }
        { id := "B", productValuation := 5 }).cache "B" = none
    ∧ (phase2Step (fun _ => false) (fun _ => 0)
        { clock := 0, windowStart := 0, sentInWindow := 0, sendTimes := [],
          replied := 0, cache := [("B", "ответ")], errors := [], persists := 0 }
        { id := "B", productValuation := 5 }).cache = [("B", "ответ")]) :=
  let h := c4_submission_deletes_on_success_only
    { id := "A", type := "feedbacks", text := some "текст" }
    [("A", "черновик")] "черновик" "текст" rfl rfl (by decide) rfl
    (by simp [keysUnique])
    { clock := 0, windowStart := 0, sentInWindow := 0, sendTimes := [],
      replied := 0, cache := [("B", "ответ")], errors := [], persists := 0 }
    { id := "B", productValuation := 5 } "ответ" (fun _ => 0)
    rfl rfl (by decide) (by simp [keysUnique])
  ⟨⟨h.1.1, h.1.2.1⟩, ⟨h.2.1.1, h.2.1.2⟩, h.2.2.1.1, h.2.2.2.1⟩

set_option maxRecDepth 100000

/-- Any rolling 1-second window catches at most one of the three submission
bursts `0, 0, 0`, `1, 1, 1`, `2` — they are a full second apart. -/
theorem windowCount_sevenTimes (t : ℚ) :
    windowCount [0, 0, 0, 1, 1, 1, 2] t ≤ 3 := by
  unfold windowCount
  rw [← List.countP_eq_length_filter]
  simp only [List.countP_cons, List.countP_nil, Bool.and_eq_true, decide_eq_true_eq]
  by_cases hA : t ≤ 0 ∧ 0 < t + 1
  · have hB : ¬(t ≤ 1 ∧ 0 < t) := fun h => by linarith [hA.1, h.2]
    have hC : ¬(t ≤ 2 ∧ 2 < t + 1) := fun h => by linarith [hA.1, h.2]
    simp [hA, hB, hC]
  · by_cases hB : t ≤ 1 ∧ 0 < t
    · have hC : ¬(t ≤ 2 ∧ 2 < t + 1) := fun h => by linarith [hB.1, h.2]
      simp [hA, hB, hC]
    · by_cases hC : t ≤ 2 ∧ 2 < t + 1 <;> simp [hA, hB, hC]

/-- C3: in the bulk workflow's submission phase over seven eligible 5-star
items with an instantly-succeeding submitter, the windowed rate limiter
issues the seven submissions at clocks `0, 0, 0, 1, 1, 1, 2` — so every
rolling 1-second window holds at most 3 submissions, and the run ends at
clock 2, i.e. takes at least 2 seconds of wall-clock from the phase-2 start
at clock 0 (two full-second sleeps for `ceil(7/3) - 1` window overflows). -/
theorem c3_bulk_rate_limiting :
    sevenItemRun.sendTimes = [0, 0, 0, 1, 1, 1, 2]
    ∧ (2 : ℚ) ≤ sevenItemRun.finalClock - 0
    ∧ sevenItemRun.summary.replied_5_stars = 7
    ∧ ∀ t : ℚ, windowCount sevenItemRun.sendTimes t ≤ 3 := by
  have hs : sevenItemRun.sendTimes = [0, 0, 0, 1, 1, 1, 2] := by
    with_unfolding_all decide
  refine ⟨hs, by with_unfolding_all decide, by with_unfolding_all decide, ?_⟩
  intro t
  rw [hs]
  exact windowCount_sevenTimes t

/-- One phase-1 iteration never un-accounts an item: the cache only gains
bindings and the error dict only gains keys. -/
theorem phase1Accounted_step (gen : FeedbackM → GenOutcome) (s : Phase1State)
    (fb fb' : FeedbackM) (h : phase1Accounted s fb) :
    phase1Accounted (phase1Step gen s fb') fb := by
  unfold phase1Accounted at h ⊢
  by_cases h1 : (cacheGet s.cache fb'.id).isSome
  · simpa [phase1Step, h1] using h
  · by_cases h2 : shouldCache (generate_ai_response (gen fb'))
    · simp only [phase1Step, h1, h2, Bool.false_eq_true, if_false, if_true]
      rcases h with h | h
      · refine Or.inl ?_
        rw [cacheGet_insert]
        split_ifs <;> simp [h]
      · exact Or.inr h
    · simp only [phase1Step, h1, h2, Bool.false_eq_true, if_false, if_true]
      rcases h with h | h
      · exact Or.inl h
      · exact Or.inr ((mem_keys_cacheInsert _ _ _ _).mpr (Or.inr h))

/-- The whole phase-1 fold never un-accounts an item. -/
theorem phase1Accounted_foldl (gen : FeedbackM → GenOutcome)
    (fbs : List FeedbackM) (s : Phase1State) (fb : FeedbackM)
    (h : phase1Accounted s fb) :
    phase1Accounted (fbs.foldl (phase1Step gen) s) fb := by
  induction fbs generalizing s with
  | nil => exact h
  | cons x xs ih => exact ih _ (phase1Accounted_step gen s fb x h)

/-- After the phase-1 generation loop, every fetched feedback is accounted
for: it holds a cached draft or an entry in the error dict, whatever its
own generation outcome was. -/
theorem phase1_accounts_all (gen : FeedbackM → GenOutcome)
    (fbs : List FeedbackM) (s : Phase1State) (fb : FeedbackM)
    (hmem : fb ∈ fbs) :
    phase1Accounted (fbs.foldl (phase1Step gen) s) fb := by
  induction fbs generalizing s with
  | nil => cases hmem
  | cons x xs ih =>
    simp only [List.foldl_cons]
    rcases List.mem_cons.mp hmem with heq | hmem'
    · subst heq
      apply phase1Accounted_foldl
      unfold phase1Accounted
      by_cases h1 : (cacheGet s.cache fb.id).isSome
      · simp [phase1Step, h1]
      · by_cases h2 : shouldCache (generate_ai_response (gen fb))
        · simp only [phase1Step, h1, h2, Bool.false_eq_true, if_false, if_true]
          refine Or.inl ?_
          rw [cacheGet_insert]
          simp
        · simp only [phase1Step, h1, h2, Bool.false_eq_true, if_false, if_true]
          exact Or.inr ((mem_keys_cacheInsert _ _ _ _).mpr (Or.inl rfl))
    · exact ih _ hmem'

/-- One phase-2 iteration never drops a recorded error key. -/
theorem phase2_errors_mono_step (sub : String → Bool) (dur : String → ℚ)
    (s : Phase2State) (fb : FeedbackM) (k : String)
    (h : k ∈ s.errors.map Prod.fst) :
    k ∈ (phase2Step sub dur s fb).errors.map Prod.fst := by
  unfold phase2Step
  split
  · exact h
  · split
    · exact h
    · split_ifs <;>
        first
        | exact h
        | exact (mem_keys_cacheInsert _ _ _ _).mpr (Or.inr h)

/-- The whole phase-2 fold never drops a recorded error key. -/
theorem phase2_errors_mono_foldl (sub : String → Bool) (dur : String → ℚ)
    (fbs : List FeedbackM) (s : Phase2State) (k : String)
    (h : k ∈ s.errors.map Prod.fst) :
    k ∈ (fbs.foldl (phase2Step sub dur) s).errors.map Prod.fst := by
  induction fbs generalizing s with
  | nil => exact h
  | cons x xs ih => exact ih _ (phase2_errors_mono_step sub dur s x k h)

/-- C8: the bulk workflow never aborts on a single item's failure — with a
successful fetch the job completes for EVERY combination of per-item
generation and submission outcomes, each fetched item ends phase 1 either
drafted or recorded in the error dict, and phase 2 only ever adds to the
error dict — while a failure of the fetch itself surfaces as a `failed` job
carrying the error message and no result (zero items processed), never as a
successful empty run. -/
theorem c8_failure_isolation :
    (∀ (e : String) (gen : FeedbackM → GenOutcome) (sub : String → Bool)
        (dur : String → ℚ) (cache0 : Cache) (t0 : ℚ),
      _run_auto_reply_job (runSync (.error e) gen sub dur cache0 t0)
        = { status := .failed, result := none, errorMsg := some e })
    ∧ (∀ (fbs : List FeedbackM) (gen : FeedbackM → GenOutcome)
        (sub : String → Bool) (dur : String → ℚ) (cache0 : Cache) (t0 : ℚ),
      _run_auto_reply_job (runSync (.ok fbs) gen sub dur cache0 t0)
        = { status := .completed,
            result := some (runSyncCore gen sub dur fbs cache0 t0),
            errorMsg := none })
    ∧ (∀ (gen : FeedbackM → GenOutcome) (fbs : List FeedbackM)
        (s : Phase1State) (fb : FeedbackM), fb ∈ fbs →
      phase1Accounted (fbs.foldl (phase1Step gen) s) fb)
    ∧ (∀ (sub : String → Bool) (dur : String → ℚ) (fbs : List FeedbackM)
        (s : Phase2State) (k : String), k ∈ s.errors.map Prod.fst →
      k ∈ (fbs.foldl (phase2Step sub dur) s).errors.map Prod.fst) :=
  ⟨fun _ _ _ _ _ _ => rfl, fun _ _ _ _ _ _ => rfl,
   fun gen fbs s fb h => phase1_accounts_all gen fbs s fb h,
   fun sub dur fbs s k h => phase2_errors_mono_foldl sub dur fbs s k h⟩

/-- Witness for `c8_failure_isolation`: a throwing fetch yields a failed job
with the message and no result; an item whose generation fails is accounted
in the phase-1 error dict; a previously recorded error key survives a
phase-2 pass. -/
theorem c8_failure_isolation_witness :
    _run_auto_reply_job (runSync (.error "нет ключа") (fun _ => .success "ок")
        (fun _ => true) (fun _ => 0) [] 0)
      = { status := .failed, result := none, errorMsg := some "нет ключа" }
    ∧ phase1Accounted
        ([{ id := "F", productValuation := 5 }].foldl
          (phase1Step fun _ => .requestError)
          { cache := [], generated := 0, cached := 0, errors := [] })
        { id := "F", productValuation := 5 }
    ∧ "X" ∈ (([{ id := "G", productValuation := 5 }].foldl
          (phase2Step (fun _ => false) (fun _ => 0))
          { clock := 0, windowStart := 0, sentInWindow := 0, sendTimes := [],
            replied := 0, cache := [], errors := [("X", "сбой")],
            persists := 0 }).errors.map Prod.fst) :=
  ⟨c8_failure_isolation.1 "нет ключа" (fun _ => .success "ок") (fun _ => true)
      (fun _ => 0) [] 0,
   c8_failure_isolation.2.2.1 (fun _ => .requestError)
      [{ id := "F", productValuation := 5 }]
      { cache := [], generated := 0, cached := 0, errors := [] }
      { id := "F", productValuation := 5 } (by simp),
   c8_failure_isolation.2.2.2 (fun _ => false) (fun _ => 0)
      [{ id := "G", productValuation := 5 }]
      { clock := 0, windowStart := 0, sentInWindow := 0, sendTimes := [],
        replied := 0, cache := [], errors := [("X", "сбой")], persists := 0 }
      "X" (by simp)⟩

/-- Witness for `c3_bulk_rate_limiting`: the rolling-window bound evaluated
at a concrete window start. -/
theorem c3_bulk_rate_limiting_witness :
    windowCount sevenItemRun.sendTimes (1 / 2) ≤ 3
    ∧ sevenItemRun.sendTimes = [0, 0, 0, 1, 1, 1, 2] :=
  ⟨c3_bulk_rate_limiting.2.2.2 (1 / 2), c3_bulk_rate_limiting.1⟩

/-- Witness for `c5_reconcile_spec`: one stale entry means the pruned cache
is the filtered one and persistence runs exactly once. -/
theorem c5_reconcile_spec_witness :
    (startupReconcile [("A", "x"), ("B", "y")] ["A"]).1
      = ([("A", "x"), ("B", "y")] : Cache).filter (fun p => (["A"].contains p.1))
    ∧ (startupReconcile [("A", "x"), ("B", "y")] ["A"]).2 = 1 :=
  ⟨(c5_reconcile_spec [("A", "x"), ("B", "y")] ["A"]).1,
   (c5_reconcile_spec [("A", "x"), ("B", "y")] ["A"]).2.1.mpr
     ⟨("B", "y"), by decide, by decide⟩⟩

end WildResponder
